import Mathlib

/-!
# Verification of the GigleGig/ChatBot RAG agent core

Shallow embedding, in Lean 4, of the retrieval-augmented-generation agent
core of the repository (files `agent_core.py`, `vector_store.py`,
`document_processor.py`, `llm_integration.py`, `config.py`), together with
theorems settling the frozen claims about it.

Modelling conventions:
* Python strings are Lean `String`s (ASCII behaviour of `str.lower` /
  `str.strip`); Python `x in s` substring tests are list-infix tests on the
  character lists.
* Python floats that the code only ever compares or divides are modelled as
  `ℚ`; wall-clock durations and ISO timestamps are not modelled (the code
  derives them from `datetime.now()`, which has no shallow embedding) — the
  only timing fact the claims use is that some branches hard-code `0.0`,
  which is kept.
* Fallible Python code (a `raise` that a caller can observe) is modelled
  with `Except String`; code that catches every exception and converts it
  to a result value is modelled as a total function on the `Except` values
  of its callees.
* External collaborators (vector index, OpenAI client, document manager)
  are model parameters, exactly as wide as the interface the core uses.
-/

namespace ChatBot

/-! ## Python string primitives used by the core -/

/-- Python whitespace (`str.strip`, `str.split()` with no argument);
ASCII subset: space, tab, newline, carriage return, vertical tab, form feed. -/
def isPySpace (c : Char) : Bool :=
  c = ' ' || c = '\t' || c = '\n' || c = '\r' || c = '\x0b' || c = '\x0c'

/-- Python `s.strip()` (whitespace removed from both ends). -/
def pyStrip (s : String) : String :=
  ⟨(s.data.dropWhile isPySpace).reverse.dropWhile isPySpace |>.reverse⟩

/-- Python `needle in hay` for strings: contiguous-substring containment. -/
def pyIn (needle hay : String) : Bool :=
  decide (needle.data <:+: hay.data)

/-- Python `s.lower()` (ASCII model, via `Char.toLower`). -/
def pyLower (s : String) : String :=
  ⟨s.data.map Char.toLower⟩

/-- Split a character list at every character satisfying `p`, keeping
empty pieces (`splitChars p [] = [[]]`, like Python's `str.split(sep)`). -/
def splitChars (p : Char → Bool) : List Char → List (List Char)
  | [] => [[]]
  | c :: cs =>
    match splitChars p cs with
    | [] => [[]]
    | w :: ws => if p c then [] :: w :: ws else (c :: w) :: ws

/-- Python `s.split()` with no argument: split on whitespace runs,
discarding empty pieces. -/
def pySplitWs (s : String) : List String :=
  ((splitChars isPySpace s.data).map (fun w => (⟨w⟩ : String))).filter
    (fun w => ¬ w.isEmpty)

/-- Python `s.split(sep)` for a single-character separator (the code only
splits on `'\n'` and `'.'`): keeps empty pieces, `"".split(sep) == [""]`. -/
def pySplitOn (s : String) (sep : Char) : List String :=
  (splitChars (fun c => c = sep) s.data).map (fun w => (⟨w⟩ : String))

/-- Python `s[:n]` for a string. -/
def pyTake (n : Nat) (s : String) : String :=
  ⟨s.data.take n⟩

/-! ## Text analysis (`TextAnalysisTool`, `agent_core.py` 326–414) -/

/-- Result dictionary of `TextAnalysisTool._basic_analysis`
(`agent_core.py` 367–378). -/
structure BasicAnalysis where
  character_count : Nat
  word_count : Nat
  line_count : Nat
  paragraph_count : Nat
  average_word_length : ℚ
  deriving Repr, DecidableEq

/-- Model of `TextAnalysisTool._basic_analysis` (`agent_core.py` 367–378):
`lines = text.split('\n')`, `words = text.split()`, average word length
guarded by `if words else 0`. -/
def basic_analysis (text : String) : BasicAnalysis :=
  let lines := pySplitOn text '\n'
  let words := pySplitWs text
  { character_count := text.length
    word_count := words.length
    line_count := lines.length
    paragraph_count := (lines.filter (fun l => ¬ (pyStrip l).isEmpty)).length
    average_word_length :=
      if words.isEmpty then 0
      else ((words.map String.length).sum : ℚ) / (words.length : ℚ) }

/-- Extra fields of `TextAnalysisTool._detailed_analysis`
(`agent_core.py` 380–395). -/
structure DetailedAnalysis where
  basic : BasicAnalysis
  sentence_count : Nat
  unique_words : Nat
  vocabulary_richness : ℚ
  average_sentence_length : ℚ
  deriving Repr, DecidableEq

/-- Characters stripped from word ends in `_detailed_analysis`:
`word.lower().strip('.,!?;:"()[]{}')`. -/
def punctChars : List Char :=
  ['.', ',', '!', '?', ';', ':', '"', '(', ')', '[', ']', '\x7b', '\x7d']

/-- Python `s.strip(chars)` for an explicit character set. -/
def pyStripChars (cs : List Char) (s : String) : String :=
  ⟨(s.data.dropWhile (· ∈ cs)).reverse.dropWhile (· ∈ cs) |>.reverse⟩

/-- Model of `TextAnalysisTool._detailed_analysis` (`agent_core.py` 380–395). -/
def detailed_analysis (text : String) : DetailedAnalysis :=
  let b := basic_analysis text
  let sentences := pySplitOn text '.'
  let uniqueWords :=
    ((pySplitWs text).map (fun w => pyStripChars punctChars (pyLower w))).dedup
  let nWords := (pySplitWs text).length
  { basic := b
    sentence_count := (sentences.filter (fun s => ¬ (pyStrip s).isEmpty)).length
    unique_words := uniqueWords.length
    vocabulary_richness :=
      if nWords = 0 then 0 else (uniqueWords.length : ℚ) / (nWords : ℚ)
    -- `len(sentences)` is never 0 (`str.split` always yields ≥ 1 piece),
    -- so the Python guard `if sentences else 0` is the division branch.
    average_sentence_length := (nWords : ℚ) / (sentences.length : ℚ) }

/-! ## Agent memory (`AgentMemory`, `agent_core.py` 417–456) -/

/-- One short-term memory entry.  The code stores free-form dictionaries
with a `type`, a `content`, the conversation id and (for responses) the
tools used; `add_to_short_term` also stamps a wall-clock `timestamp`,
which is outside the embedding. -/
structure MemItem where
  kind : String
  content : String
  tools_used : List String := []
  deriving Repr, DecidableEq

/-- Model of `AgentMemory.add_to_short_term` (`agent_core.py` 426–434): append,
then truncate to the last 50 entries when the length exceeds 50
(`self.short_term_memory = self.short_term_memory[-50:]`). -/
def add_to_short_term (mem : List MemItem) (item : MemItem) : List MemItem :=
  let m := mem ++ [item]
  if 50 < m.length then m.drop (m.length - 50) else m

/-! ## Chunking (`document_processor.py`) -/

/-- Model of `ChunkingStrategy` (`document_processor.py` 79–85). -/
inductive ChunkingStrategy where
  | recursive | character | token | sentence | paragraph
  deriving Repr, DecidableEq

/-- Model of `DocumentChunk` (`document_processor.py` 125–147).  The pydantic
validator strips the content and rejects empty/whitespace-only content;
`chunk_text` only constructs chunks whose content has a non-empty strip,
so the validator never fires on that path.  The free-form `metadata` map
is modelled only by the fields the claims inspect. -/
structure DocumentChunk where
  chunk_id : String
  content : String
  chunk_index : Nat
  source_document : String
  deriving Repr, DecidableEq

/-- The constructor check shared by the LangChain `TextSplitter`s that
`TextChunker._create_splitter` instantiates (external collaborator,
`langchain.text_splitter`): it raises `ValueError` iff
`chunk_overlap > chunk_size` — equality is accepted. -/
def textSplitter_init_check (chunk_size chunk_overlap : Int) : Except String Unit :=
  if chunk_size < chunk_overlap then
    .error ("Got a larger chunk overlap (" ++ toString chunk_overlap ++
      ") than chunk size (" ++ toString chunk_size ++ "), should be smaller.")
  else .ok ()

/-- The state a constructed `TextChunker` holds
(`document_processor.py` 349–362). -/
structure TextChunker where
  strategy : ChunkingStrategy
  chunk_size : Int
  chunk_overlap : Int
  deriving Repr, DecidableEq

/-- Model of `TextChunker.__init__` (`document_processor.py` 349–362): stores the
configuration unchecked and then builds the LangChain splitter
(`self._splitter = self._create_splitter()`), whose constructor is the
only validation that runs. -/
def TextChunker.init (strategy : ChunkingStrategy) (chunk_size chunk_overlap : Int) :
    Except String TextChunker :=
  match textSplitter_init_check chunk_size chunk_overlap with
  | .error e => .error e
  | .ok _ => .ok { strategy := strategy, chunk_size := chunk_size,
                   chunk_overlap := chunk_overlap }

/-- The field validations of `VectorStoreConfig` (`config.py` 88–93):
`chunk_size` has `gt=0`, `chunk_overlap` has `ge=0`, and no constraint
relates the two. -/
def vectorStoreConfig_accepts (chunk_size chunk_overlap : Int) : Bool :=
  decide (0 < chunk_size) && decide (0 ≤ chunk_overlap)

/-- Model of `TextChunker.chunk_text` (`document_processor.py` 390–427),
parametrised by the LangChain splitter's `split_text` (external):
whitespace-only text yields `[]`; split pieces with whitespace-only
content are discarded; surviving chunks keep their index `i` in the raw
split and their content is stripped by the `DocumentChunk` validator. -/
def chunk_text (split_text : String → List String)
    (text source_document : String) : List DocumentChunk :=
  if (pyStrip text).isEmpty then []
  else
    ((split_text text).enum.filter
        (fun p => ¬ (pyStrip p.2).isEmpty)).map
      (fun p =>
        { chunk_id := source_document ++ "_" ++ toString p.1
          content := pyStrip p.2
          chunk_index := p.1
          source_document := source_document })

/-- Model of `TextLoader.load_content` (`document_processor.py` 225–242) applied to
a just-written temporary text file whose contents are `content`: every
encoding attempt reads the same text back, so the loader returns the
content iff its strip is non-empty and otherwise exhausts the encodings
and raises `ValueError`. -/
def textLoader_load_content (path content : String) : Except String String :=
  if ¬ (pyStrip content).isEmpty then .ok content
  else .error ("Could not decode file " ++ path ++ " with any supported encoding")

/-- Model of `DocumentProcessor.process_document` (`document_processor.py` 507–565)
on the `.txt` temporary file created by `AddToKnowledgeBaseTool.execute`
(the file exists and the TXT loader is always registered): load, reject
empty content, chunk; metadata generation is pure bookkeeping and is
elided.  Errors are re-raised as `ValueError` with the shown wrapping. -/
def process_document (split_text : String → List String)
    (path content : String) : Except String (List DocumentChunk) :=
  match textLoader_load_content path content with
  | .error e => .error ("Failed to load content from " ++ path ++ ": " ++ e)
  | .ok loaded =>
    if (pyStrip loaded).isEmpty then
      .error ("No content extracted from " ++ path)
    else .ok (chunk_text split_text loaded path)

/-! ## Vector store and retrieval (`vector_store.py`) -/

/-- Model of `SearchResult` (`vector_store.py` 60–74).  The pydantic validator
requires `0.0 <= score <= 1.0`. -/
structure SearchResult where
  chunk : DocumentChunk
  score : ℚ
  rank : Nat
  deriving Repr, DecidableEq

/-- Model of `DocumentRetriever.retrieve_documents` (`vector_store.py` 445–458),
parametrised by the vector store's `similarity_search` (black-box
collaborator): empty/whitespace queries short-circuit to `[]` without
consulting the store; otherwise the store's results are filtered by
`score >= min_score` — but only when `min_score > 0.0`. -/
def retrieve_documents (similarity_search : String → Nat → List SearchResult)
    (query : String) (k : Nat) (min_score : ℚ) : List SearchResult :=
  if query.isEmpty || (pyStrip query).isEmpty then []
  else
    let results := similarity_search query k
    if 0 < min_score then results.filter (fun r => min_score ≤ r.score)
    else results

/-- The retrieval contract as the specification states it: exactly the
subsequence of the store's results with `score ≥ min_score`, with the
empty-query short-circuit.  Modelled from the spec's words for
comparison with `retrieve_documents` (refinement claim C5). -/
def retrieve_documents_spec (similarity_search : String → Nat → List SearchResult)
    (query : String) (k : Nat) (min_score : ℚ) : List SearchResult :=
  if query.isEmpty || (pyStrip query).isEmpty then []
  else (similarity_search query k).filter (fun r => min_score ≤ r.score)

/-! ## Tool results, registry and executor (`agent_core.py` 47–54, 459–537) -/

/-- One entry of a `document_search` result list
(`agent_core.py` 112–120). -/
structure DocHit where
  content : String
  score : ℚ
  source : String
  chunk_index : Nat
  deriving Repr, DecidableEq

/-- The structured payloads the modelled built-in tools put in
`ToolResult.result` (Python uses free-form dictionaries). -/
inductive Payload where
  | docSearch (query : String) (results : List DocHit) (total_results : Nat)
  | textBasic (a : BasicAnalysis)
  | textDetailed (a : DetailedAnalysis)
  | kbAdd (title : String) (chunks_added : Nat) (total_characters : Nat)
      (source : String) (stats_updated : Bool)
  deriving Repr, DecidableEq

/-- Model of `ToolResult` (`agent_core.py` 47–54).  `execution_time` keeps only the
values the code hard-codes (`0.0` on the error branches); measured
wall-clock durations are outside the embedding and appear as `0` too. -/
structure ToolResult where
  tool_name : String
  success : Bool
  result : Option Payload := none
  error : Option String := none
  execution_time : ℚ := 0
  deriving Repr, DecidableEq

/-- A registered tool (`Tool`, `agent_core.py` 57–84): a name, an enabled
flag (`True` at construction) and an `execute` body.  `σ` is the state of
the external collaborators the tool mutates, `α` its keyword-argument
type; a Python exception escaping `execute` (including a `TypeError` from
binding malformed kwargs) is the `.error` case. -/
structure Tool (σ α : Type) where
  name : String
  enabled : Bool := true
  execute : α → σ → Except String (ToolResult × σ)

/-- One entry of `ToolManager.execution_history`
(`agent_core.py` 509–514): the tool name, the kwargs and the recorded
`result.model_dump()`; the wall-clock `timestamp` field is outside the
embedding. -/
structure HistEntry (α : Type) where
  tool_name : String
  parameters : α
  result : ToolResult

/-- Model of `ToolManager` (`agent_core.py` 459–465): a name-keyed tool registry
(the dict is modelled as a list with `find?` lookup) plus the unbounded
execution history. -/
structure ToolManager (σ α : Type) where
  tools : List (Tool σ α)
  execution_history : List (HistEntry α) := []

/-- Model of `ToolManager.get_tool` (`agent_core.py` 478–480). -/
def ToolManager.get_tool (m : ToolManager σ α) (tool_name : String) :
    Option (Tool σ α) :=
  m.tools.find? (fun t => t.name = tool_name)

/-- Result of one `execute_tool` call: the returned `ToolResult`, the
manager (history possibly extended) and the collaborator state. -/
structure ExecOutcome (σ α : Type) where
  result : ToolResult
  manager : ToolManager σ α
  env : σ

/-- Model of `ToolManager.execute_tool` (`agent_core.py` 486–533).  Unknown name
and disabled tool return early — note: without touching the history.
A completed `execute` and a raised exception both append exactly one
history entry recording the returned result.  (A tool that mutates
collaborator state and then raises is modelled as failing atomically;
the built-in tools catch all their internal exceptions, so none of them
reaches the `.error` case with partial mutations.) -/
def ToolManager.execute_tool (m : ToolManager σ α) (env : σ)
    (tool_name : String) (kwargs : α) : ExecOutcome σ α :=
  match m.get_tool tool_name with
  | none =>
    { result := { tool_name := tool_name, success := false,
                  error := some ("Tool '" ++ tool_name ++ "' not found"),
                  execution_time := 0 }
      manager := m, env := env }
  | some t =>
    if ¬ t.enabled then
      { result := { tool_name := tool_name, success := false,
                    error := some ("Tool '" ++ tool_name ++ "' is disabled"),
                    execution_time := 0 }
        manager := m, env := env }
    else
      match t.execute kwargs env with
      | .ok (result, env') =>
        { result := result
          manager := { m with execution_history := m.execution_history ++
            [{ tool_name := tool_name, parameters := kwargs, result := result }] }
          env := env' }
      | .error e =>
        let error_result : ToolResult :=
          { tool_name := tool_name, success := false,
            error := some ("Tool execution failed: " ++ e), execution_time := 0 }
        { result := error_result
          manager := { m with execution_history := m.execution_history ++
            [{ tool_name := tool_name, parameters := kwargs, result := error_result }] }
          env := env }

/-! ## Knowledge-base insert tool (`AddToKnowledgeBaseTool`,
`agent_core.py` 160–297) -/

/-- The document-tracking collaborator the tool optionally updates
(`document_manager` with its `processed_documents` list and
`document_stats` counters; `last_updated` is a wall-clock value, not
modelled). -/
structure DocumentManager where
  processed_documents : List (String × Nat) := []
  total_documents : Nat := 0
  total_chunks : Nat := 0
  deriving Repr, DecidableEq

/-- Model of `AddToKnowledgeBaseTool.execute` (`agent_core.py` 174–297):
the content is written to a fresh temporary `.txt` file at `path` and run
through `DocumentProcessor.process_document`; a processor exception is
caught and reported as a `DocumentProcessor failed:` result; an empty
chunk list is the explicit `No content could be extracted` failure; with
chunks, each chunk's source is re-pointed at `title`, the chunks go to
`vector_store.add_documents` (collaborator `add_documents`), and on
success an attached document manager's counters are bumped.  Filesystem
failures of the tempfile itself (outer `except`) are outside the model. -/
def addToKB_execute (split_text : String → List String)
    (add_documents : List DocumentChunk → Bool) (dm : Option DocumentManager)
    (path content title source : String) :
    ToolResult × Option DocumentManager :=
  match process_document split_text path content with
  | .error process_error =>
    ({ tool_name := "add_to_knowledge_base", success := false,
       error := some ("DocumentProcessor failed: " ++ process_error) }, dm)
  | .ok chunks =>
    if chunks.isEmpty then
      ({ tool_name := "add_to_knowledge_base", success := false,
         error := some "No content could be extracted",
         execution_time := 0 }, dm)
    else
      let chunks' := chunks.map (fun c => { c with source_document := title })
      let success := add_documents chunks'
      let dm' :=
        if success then
          dm.map (fun d =>
            { processed_documents := d.processed_documents ++ [(title, chunks.length)]
              total_documents := d.total_documents + 1
              total_chunks := d.total_chunks + chunks.length })
        else dm
      ({ tool_name := "add_to_knowledge_base", success := success,
         result := some (.kbAdd title chunks.length content.length source dm.isSome) },
       dm')

/-! ## Agent keyword policy (`agent_core.py` 670–739) -/

/-- Keyword arguments of the agent's tool calls (`**kwargs` dictionaries).
Each field is `none` when the key is absent.  `language` can be present
with value `None` (the detector's miss), hence `Option (Option String)`. -/
structure AgentArgs where
  query : Option String := none
  k : Option Nat := none
  min_score : Option ℚ := none
  text : Option String := none
  analysis_type : Option String := none
  content : Option String := none
  title : Option String := none
  source : Option String := none
  search_type : Option String := none
  language : Option (Option String) := none
  fetch_content : Option Bool := none
  max_content_files : Option Nat := none
  deriving Repr, DecidableEq

/-- One recommendation of `_decide_tool_usage`. -/
structure ToolRec where
  tool_name : String
  parameters : AgentArgs
  deriving Repr, DecidableEq

/-- The decision dictionary of `_decide_tool_usage`. -/
structure ToolDecision where
  use_tools : Bool
  recommended_tools : List ToolRec
  reasoning : String
  deriving Repr, DecidableEq

/-- Model of `keywords_for_search` (`agent_core.py` 675). -/
def keywords_for_search : List String :=
  ["search", "find", "lookup", "document", "information", "what", "who",
   "when", "where", "how"]

/-- Model of `keywords_for_analysis` (`agent_core.py` 676). -/
def keywords_for_analysis : List String :=
  ["analyze", "analysis", "statistics", "count", "length", "structure"]

/-- Model of `keywords_for_github` (`agent_core.py` 677). -/
def keywords_for_github : List String :=
  ["github", "code", "repository", "repo", "function", "class",
   "implementation", "example", "library", "package"]

/-- Model of `keywords_for_code_search` (`agent_core.py` 678). -/
def keywords_for_code_search : List String :=
  ["def", "function", "class", "import", "async", "await", "python",
   "javascript", "java", "c++"]

/-- Model of `language_keywords` of `_detect_programming_language`
(`agent_core.py` 722–733); the dict preserves this insertion order. -/
def language_keywords : List (String × List String) :=
  [("python", ["python", "def", "import", "class", "pip", "django", "flask", "pandas"]),
   ("javascript", ["javascript", "js", "function", "var", "let", "const", "node", "react", "vue"]),
   ("java", ["java", "public", "private", "class", "import", "spring", "maven"]),
   ("typescript", ["typescript", "ts", "interface", "type"]),
   ("c++", ["c++", "cpp", "include", "namespace", "std"]),
   ("go", ["golang", "go", "func", "package"]),
   ("rust", ["rust", "fn", "cargo", "crate"]),
   ("php", ["php", "function", "class", "composer"]),
   ("ruby", ["ruby", "def", "class", "gem"]),
   ("swift", ["swift", "func", "class", "var", "let"])]

/-- Model of `Agent._detect_programming_language` (`agent_core.py` 718–739): the
first language family (in `language_keywords` order) one of whose
keywords occurs as a substring of the lower-cased query wins. -/
def detect_programming_language (query : String) : Option String :=
  let query_lower := pyLower query
  (language_keywords.find? (fun p => p.2.any (fun kw => pyIn kw query_lower))).map
    (fun p => p.1)

/-- The GitHub recommendation built at `agent_core.py` 687–696. -/
def github_rec (user_input : String) : ToolRec :=
  { tool_name := "github_search_with_content"
    parameters := { query := some user_input, search_type := some "code",
                    language := some (detect_programming_language user_input),
                    fetch_content := some true, max_content_files := some 3 } }

/-- The document-search recommendation built at `agent_core.py` 700–703. -/
def doc_search_rec (user_input : String) : ToolRec :=
  { tool_name := "document_search"
    parameters := { query := some user_input, k := some 5 } }

/-- The text-analysis recommendation built at `agent_core.py` 707–710. -/
def text_analysis_rec (user_input : String) : ToolRec :=
  { tool_name := "text_analysis"
    parameters := { text := some user_input, analysis_type := some "basic" } }

/-- Model of `Agent._decide_tool_usage` (`agent_core.py` 670–716): keyword
classification by substring tests on the lower-cased utterance.  GitHub /
code keywords win over (and suppress) generic search keywords; analysis
keywords add a recommendation independently. -/
def decide_tool_usage (user_input : String) : ToolDecision :=
  let user_lower := pyLower user_input
  let github_hit := keywords_for_github.any (fun kw => pyIn kw user_lower)
    || keywords_for_code_search.any (fun kw => pyIn kw user_lower)
  let search_hit := keywords_for_search.any (fun kw => pyIn kw user_lower)
  let analysis_hit := keywords_for_analysis.any (fun kw => pyIn kw user_lower)
  let recommended :=
    (if github_hit then [github_rec user_input]
     else if search_hit then [doc_search_rec user_input] else [])
    ++ (if analysis_hit then [text_analysis_rec user_input] else [])
  { use_tools := decide (0 < recommended.length)
    recommended_tools := recommended
    reasoning := "Found " ++ toString recommended.length ++
      " relevant tools for this request" }

/-! ## LLM collaborator, conversations and the RAG chain
(`llm_integration.py`) -/

/-- A `{"role": ..., "content": ...}` message. -/
structure ChatMessage where
  role : String
  content : String
  deriving Repr, DecidableEq

/-- Model of `LLMResponse` (`llm_integration.py` 91–98); only the fields the
orchestrator reads. -/
structure LLMResponse where
  content : String
  model : String := ""
  deriving Repr, DecidableEq

/-- The conversation store of `ConversationManager`
(`llm_integration.py` 167–193): id-keyed conversations, each an ordered
message list. -/
abbrev ConvStore : Type := List (String × List ChatMessage)

/-- Model of `ConversationManager.get_conversation`. -/
def convs_get (convs : ConvStore) (cid : String) : Option (List ChatMessage) :=
  (convs.find? (fun p => p.1 = cid)).map (fun p => p.2)

/-- Store/overwrite a conversation under its id. -/
def convs_set (convs : ConvStore) (cid : String) (ms : List ChatMessage) : ConvStore :=
  if (convs.find? (fun p => p.1 = cid)).isSome then
    convs.map (fun p => if p.1 = cid then (cid, ms) else p)
  else convs ++ [(cid, ms)]

/-- Model of `Conversation.add_message` (`llm_integration.py` 68–77): the
`ConversationMessage` validator strips the content and raises on
empty/whitespace-only content. -/
def conversation_add_message (ms : List ChatMessage) (role content : String) :
    Except String (List ChatMessage) :=
  if (pyStrip content).isEmpty then .error "Message content cannot be empty"
  else .ok (ms ++ [{ role := role, content := pyStrip content }])

/-- Model of `Conversation.get_messages_for_llm(max_messages=10)`
(`llm_integration.py` 79–88). -/
def get_messages_for_llm (ms : List ChatMessage) : List ChatMessage :=
  ms.drop (ms.length - 10)

/-- System prompt of the `rag_qa` template (`llm_integration.py` 229–238). -/
def rag_qa_system_prompt : String :=
  "You are a helpful AI assistant that answers questions based on provided context. \nUse the retrieved documents to provide accurate responses. If the context doesn't contain enough information, say so clearly."

/-- Model of `rag_qa` user prompt, already formatted
(`PromptTemplate.format_user_prompt` with `context` and `question`). -/
def rag_qa_user_prompt (context question : String) : String :=
  "Context from retrieved documents:\n" ++ context ++ "\n\nQuestion: " ++
    question ++ "\n\nPlease provide a helpful answer based on the context above."

/-- System prompt of the `chat` template (`llm_integration.py` 241–251). -/
def chat_system_prompt : String :=
  "You are a helpful AI assistant engaging in conversation. \nUse retrieved context when relevant."

/-- Model of `chat` user prompt, already formatted (with `context` and
`user_message`). -/
def chat_user_prompt (context user_message : String) : String :=
  "Retrieved Context:\n" ++ context ++ "\n\nUser Message: " ++ user_message ++
    "\n\nPlease respond naturally."

/-- Result dictionary of `RAGChain.process_query`; the failure dictionary
has no `response` key, modelled as `""`. -/
structure PQResult where
  success : Bool
  response : String := ""
  error : Option String := none
  retrieval_results : List SearchResult
  context_used : String
  deriving Repr, DecidableEq

/-- External collaborators of one agent: the vector index
(`similarity_search`, `add_documents`), the LangChain splitter behind the
knowledge-base tool (`split_text`) together with the tempfile name it
writes, the optional document manager, and the OpenAI client behind
`LLMManager.generate_response` (`llm`; an `.error` is the `ValueError`
the manager raises on any client failure). -/
structure AgentEnv where
  similarity_search : String → Nat → List SearchResult
  add_documents : List DocumentChunk → Bool
  split_text : String → List String
  temp_path : String
  document_manager : Option DocumentManager
  llm : List ChatMessage → Except String LLMResponse

/-- Model of `RAGChain.process_query` (`llm_integration.py` 254–323).  The outer
`Except` is the one exception the function can let escape — an unknown
template name; every LLM or conversation-validator failure is caught
inside and returned as a `success=False` dictionary. -/
def process_query (env : AgentEnv) (convs : ConvStore) (query : String)
    (conversation_id : Option String) (template_name : String)
    (retrieval_k : Nat) : Except String (PQResult × ConvStore) :=
  let search_results :=
    retrieve_documents env.similarity_search query retrieval_k 0
  let context :=
    if search_results.isEmpty then "No relevant documents found."
    else String.intercalate "\n\n" (search_results.enum.map
      (fun p => "Document " ++ toString (p.1 + 1) ++ ":\n" ++ p.2.chunk.content))
  if template_name ≠ "rag_qa" ∧ template_name ≠ "chat" then
    .error ("Template '" ++ template_name ++ "' not found")
  else
    let history := match conversation_id with
      | some cid => match convs_get convs cid with
        | some ms => get_messages_for_llm ms
        | none => []
      | none => []
    let system_prompt :=
      if template_name = "rag_qa" then rag_qa_system_prompt else chat_system_prompt
    let user_prompt :=
      if template_name = "rag_qa" then rag_qa_user_prompt context query
      else chat_user_prompt context query
    let messages := [ChatMessage.mk "system" system_prompt] ++ history ++
      [ChatMessage.mk "user" user_prompt]
    let failure := fun (e : String) =>
      ({ success := false, error := some e, retrieval_results := search_results,
         context_used := context } : PQResult)
    match env.llm messages with
    | .error e => .ok (failure e, convs)
    | .ok llm_response =>
      let ok_result : PQResult :=
        { success := true, response := llm_response.content,
          retrieval_results := search_results, context_used := context }
      match conversation_id with
      | none => .ok (ok_result, convs)
      | some cid =>
        -- `get_conversation` or `create_conversation` (registered at once)
        let conv := (convs_get convs cid).getD []
        let convs1 := if (convs_get convs cid).isSome then convs
          else convs_set convs cid []
        match conversation_add_message conv "user" query with
        | .error e => .ok (failure e, convs1)
        | .ok conv1 =>
          let convs2 := convs_set convs1 cid conv1
          match conversation_add_message conv1 "assistant" llm_response.content with
          | .error e => .ok (failure e, convs2)
          | .ok conv2 => .ok (ok_result, convs_set convs2 cid conv2)

/-! ## The agent's built-in tools (`agent_core.py` 87–414, 554–572) -/

/-- Model of `DocumentSearchTool` (`agent_core.py` 87–157).  A call without the
required `query` kwarg is the `TypeError` Python raises when binding
`execute(self, query, k=5, min_score=0.0)`; with the retriever modelled
as total, the internal `except` branch is unreachable. -/
def document_search_tool : Tool AgentEnv AgentArgs :=
  { name := "document_search"
    execute := fun a env =>
      match a.query with
      | none => .error "execute() missing 1 required positional argument: 'query'"
      | some q =>
        let results := retrieve_documents env.similarity_search q
          (a.k.getD 5) (a.min_score.getD 0)
        .ok ({ tool_name := "document_search", success := true,
               result := some (.docSearch q
                 (results.map (fun r =>
                   { content := r.chunk.content, score := r.score,
                     source := r.chunk.source_document,
                     chunk_index := r.chunk.chunk_index }))
                 results.length) }, env) }

/-- Model of `AddToKnowledgeBaseTool` as registered by the agent
(`agent_core.py` 160–323, 560–568), wired to the collaborators in the
environment. -/
def add_to_knowledge_base_tool : Tool AgentEnv AgentArgs :=
  { name := "add_to_knowledge_base"
    execute := fun a env =>
      match a.content, a.title with
      | some content, some title =>
        let out := addToKB_execute env.split_text env.add_documents
          env.document_manager env.temp_path content title (a.source.getD "user_input")
        .ok (out.1, { env with document_manager := out.2 })
      | _, _ =>
        .error "execute() missing required positional arguments: 'content' and 'title'" }

/-- Model of `TextAnalysisTool` (`agent_core.py` 326–414).  An unknown
`analysis_type` raises a `ValueError` that the tool's own `except`
converts to a failed `ToolResult`; only the kwarg-binding `TypeError`
escapes to the executor. -/
def text_analysis_tool : Tool AgentEnv AgentArgs :=
  { name := "text_analysis"
    execute := fun a env =>
      match a.text with
      | none => .error "execute() missing 1 required positional argument: 'text'"
      | some text =>
        let ty := a.analysis_type.getD "basic"
        if ty = "basic" then
          .ok ({ tool_name := "text_analysis", success := true,
                 result := some (.textBasic (basic_analysis text)) }, env)
        else if ty = "detailed" then
          .ok ({ tool_name := "text_analysis", success := true,
                 result := some (.textDetailed (detailed_analysis text)) }, env)
        else
          .ok ({ tool_name := "text_analysis", success := false,
                 error := some ("Unknown analysis type: " ++ ty) }, env) }

/-- Model of `Agent._register_default_tools` (`agent_core.py` 554–596) in a
deployment without a `GITHUB_TOKEN`: the three GitHub tools are skipped
with a warning, leaving `document_search`, `add_to_knowledge_base` and
`text_analysis`, in registration order. -/
def default_tools : List (Tool AgentEnv AgentArgs) :=
  [document_search_tool, add_to_knowledge_base_tool, text_analysis_tool]

/-! ## Orchestrator (`Agent`, `agent_core.py` 540–985) -/

/-- Return dictionary of `_generate_simple_response` /
`_generate_response_with_tools`. -/
structure GenResult where
  response : String
  tools_used : List String
  error : Option String := none
  fallback_response : Bool := false
  deriving Repr, DecidableEq

/-- System prompt of the no-context fallback
(`agent_core.py` 935–944). -/
def fallback_system_prompt : String :=
  "You are a helpful AI assistant. The user has asked a question but no relevant documents were found in the knowledge base. Please provide a helpful response based on your general knowledge. If the question is about programming, provide code examples. If you don't know something specific, be honest about limitations but still try to be helpful with general guidance."

/-- Apology text of the degraded fallback response
(`agent_core.py` 957), up to the interpolated error. -/
def apology_text : String :=
  "I apologize, but I encountered an issue generating a response. Please try rephrasing your question or adding more context. Error: "

/-- Model of `Agent._generate_simple_response` (`agent_core.py` 915–961): RAG
first; if the RAG result reports failure, one direct LLM call without
retrieval context; if that call also raises, a degraded apology response
embedding the error text — returned as an ordinary result, not an
exception.  The outer `Except` propagates only what `process_query`
itself can raise. -/
def generate_simple_response (env : AgentEnv) (convs : ConvStore)
    (conversation_id user_input : String) :
    Except String (GenResult × ConvStore) :=
  match process_query env convs user_input (some conversation_id) "rag_qa" 5 with
  | .error e => .error e
  | .ok (rag_result, convs') =>
    if rag_result.success then
      .ok ({ response := rag_result.response, tools_used := [] }, convs')
    else
      let messages := [ChatMessage.mk "system" fallback_system_prompt,
                       ChatMessage.mk "user" user_input]
      match env.llm messages with
      | .ok r =>
        .ok ({ response := r.content, tools_used := [],
               fallback_response := true }, convs')
      | .error e =>
        .ok ({ response := apology_text ++ e, tools_used := [],
               error := some e, fallback_response := true }, convs')

/-- The context lines one successful tool result contributes in
`_generate_response_with_tools` (`agent_core.py` 760–845).  The
`github_*` formatting branches are omitted: without a `GITHUB_TOKEN` no
GitHub tool is registered, so no successful result can carry those names.
`add_to_knowledge_base` successes match no branch and contribute
nothing (but are still counted in `tools_used`). -/
def tool_context_lines (r : ToolResult) : List String :=
  match r.tool_name, r.result with
  | "document_search", some (.docSearch _ hits _) =>
    (hits.take 3).enum.map (fun p =>
      "Search Result " ++ toString (p.1 + 1) ++ ": " ++
        pyTake 200 p.2.content ++ "...")
  | "text_analysis", some (.textBasic a) =>
    ["Text Analysis: " ++ toString a.word_count ++ " words, " ++
      toString a.character_count ++ " characters"]
  | "text_analysis", some (.textDetailed a) =>
    ["Text Analysis: " ++ toString a.basic.word_count ++ " words, " ++
      toString a.basic.character_count ++ " characters"]
  | _, _ => []

/-- System prompt of the combined tools+RAG call
(`agent_core.py` 868–871). -/
def combined_system_prompt : String :=
  "You are a helpful AI assistant. Use both the knowledge base documents and tool results to provide comprehensive and accurate responses. Prioritize recent information from tools while leveraging foundational knowledge from documents."

/-- User prompt of the combined tools+RAG call
(`agent_core.py` 872–884). -/
def combined_user_prompt (user_input rag_context tool_context : String) : String :=
  "User Request: " ++ user_input ++ "\n\nKnowledge Base Context:\n" ++
    (if rag_context ≠ "" then rag_context
     else "No relevant documents found in knowledge base.") ++
    "\n\nTool Results:\n" ++ tool_context ++
    "\n\nPlease provide a comprehensive response that combines insights from both the knowledge base and tool results."

/-- Model of `Agent._generate_response_with_tools` (`agent_core.py` 754–913):
collect context lines from the successful tool results, run the RAG
query, and combine both in one LLM call; an LLM failure is converted to
an ordinary result that embeds the error. -/
def generate_response_with_tools (env : AgentEnv) (convs : ConvStore)
    (conversation_id user_input : String) (tool_results : List ToolResult) :
    Except String (GenResult × ConvStore) :=
  let successful := tool_results.filter (fun r => r.success)
  let tools_used := successful.map (fun r => r.tool_name)
  let tool_context_parts := (successful.map tool_context_lines).flatten
  let tool_context :=
    if tool_context_parts.isEmpty then "No tool results available."
    else String.intercalate "\n\n" tool_context_parts
  match process_query env convs user_input (some conversation_id) "rag_qa" 5 with
  | .error e => .error e
  | .ok (rag_result, convs') =>
    let rag_context :=
      if rag_result.success ∧ ¬ rag_result.retrieval_results.isEmpty then
        String.intercalate "\n\n" ((rag_result.retrieval_results.take 3).enum.map
          (fun p => "Knowledge Base Document " ++ toString (p.1 + 1) ++ ": " ++
            pyTake 300 p.2.chunk.content ++ "..."))
      else ""
    if ¬ tool_context_parts.isEmpty ∨ rag_context ≠ "" then
      let messages := [ChatMessage.mk "system" combined_system_prompt,
        ChatMessage.mk "user" (combined_user_prompt user_input rag_context tool_context)]
      match env.llm messages with
      | .ok r => .ok ({ response := r.content, tools_used := tools_used }, convs')
      | .error e =>
        .ok ({ response := "I encountered an issue generating a response: " ++ e,
               tools_used := tools_used, error := some e }, convs')
    else
      if rag_result.success then
        .ok ({ response := rag_result.response, tools_used := tools_used }, convs')
      else
        .ok ({ response := "I encountered an issue generating a response: " ++
                 rag_result.error.getD "Unknown error",
               tools_used := tools_used, error := rag_result.error }, convs')

/-- The per-conversation state `Agent` owns: the memory, the tool
manager, the conversation store of its RAG chain, and the collaborator
environment its tools mutate. -/
structure AgentState where
  conversation_id : String
  memory : List MemItem := []
  working_tool_results : Option (List ToolResult) := none
  manager : ToolManager AgentEnv AgentArgs :=
    { tools := default_tools, execution_history := [] }
  conversations : ConvStore := []
  env : AgentEnv

/-- Model of `Agent._execute_recommended_tools` (`agent_core.py` 741–752):
execute the recommendations in order through the executor, collecting
the results. -/
def execute_recommended_tools (m : ToolManager AgentEnv AgentArgs)
    (env : AgentEnv) (recs : List ToolRec) :
    List ToolResult × ToolManager AgentEnv AgentArgs × AgentEnv :=
  recs.foldl
    (fun acc rec =>
      let out := acc.2.1.execute_tool acc.2.2 rec.tool_name rec.parameters
      (acc.1 ++ [out.result], out.manager, out.env))
    ([], m, env)

/-- The structured result dictionary `Agent.process_request` returns
(`agent_core.py` 645–652, 663–668); `execution_time` is wall clock and
not modelled; absent keys are `none`. -/
structure TurnResult where
  success : Bool
  response : Option String := none
  tools_used : List String := []
  error : Option String := none
  conversation_id : String
  memory_items : Option Nat := none
  deriving Repr, DecidableEq

/-- Model of `Agent.process_request` (`agent_core.py` 598–668).  The utterance is
logged to short-term memory first; then policy → tools → generation, or
the simple path.  The `.error` case is the top-level `except` that turns
an escaped exception into a `success=False` dictionary — with the
modelled collaborators it is reachable only through `process_query`'s
template lookup, which both call sites satisfy (`"rag_qa"`). -/
def process_request (st : AgentState) (user_input : String)
    (use_tools : Bool) : TurnResult × AgentState :=
  let item0 : MemItem := { kind := "user_input", content := user_input }
  let st1 := { st with memory := add_to_short_term st.memory item0 }
  let body : Except String (GenResult × AgentState) :=
    if use_tools ∧ (decide_tool_usage user_input).use_tools then
      let recs := (decide_tool_usage user_input).recommended_tools
      let out := execute_recommended_tools st1.manager st1.env recs
      let st2 := { st1 with
        manager := out.2.1
        env := out.2.2
        working_tool_results := some out.1 }
      match generate_response_with_tools st2.env st2.conversations
          st2.conversation_id user_input out.1 with
      | .error e => .error e
      | .ok (g, convs') => .ok (g, { st2 with conversations := convs' })
    else
      match generate_simple_response st1.env st1.conversations
          st1.conversation_id user_input with
      | .error e => .error e
      | .ok (g, convs') => .ok (g, { st1 with conversations := convs' })
  match body with
  | .ok (g, st') =>
    let item1 : MemItem := { kind := "agent_response", content := g.response,
                             tools_used := g.tools_used }
    let st2 := { st' with memory := add_to_short_term st'.memory item1 }
    ({ success := true, response := some g.response,
       tools_used := g.tools_used, conversation_id := st.conversation_id,
       memory_items := some st2.memory.length }, st2)
  | .error e =>
    let item1 : MemItem := { kind := "error", content := e }
    let st2 := { st1 with memory := add_to_short_term st1.memory item1 }
    ({ success := false, error := some e,
       conversation_id := st.conversation_id }, st2)

/-! ## Claim C9 — basic analysis of the empty string -/

/-- C9: basic text analysis applied to the empty string returns
`character_count = 0`, `word_count = 0` and `average_word_length = 0`;
`basic_analysis` is a total function, so no exception (in particular no
division by zero — the guard `if words else 0` takes the `0` branch) can
occur. -/
theorem c9_basic_analysis_empty :
    (basic_analysis "").character_count = 0 ∧
    (basic_analysis "").word_count = 0 ∧
    (basic_analysis "").average_word_length = 0 := by
  decide

/-! ## Claim C7 — chunker construction and the overlap invariant -/

/-- Counterexample to C7: a `TextChunker` with `chunk_overlap` equal to
`chunk_size` (100/100) is accepted at construction — the LangChain
splitter check rejects only `overlap > size` and `TextChunker.__init__`
itself validates nothing — so a validly constructed chunker with
`¬ (chunk_overlap < chunk_size)` exists; `VectorStoreConfig` accepts the
same pair as well. -/
theorem c7_counterexample :
    TextChunker.init ChunkingStrategy.recursive 100 100 =
      .ok { strategy := ChunkingStrategy.recursive, chunk_size := 100,
            chunk_overlap := 100 } ∧
    vectorStoreConfig_accepts 100 100 = true ∧
    ¬ ((100 : Int) < 100) := by
  refine ⟨rfl, by decide, by decide⟩

/-- C7 (amended): chunker construction succeeds iff
`chunk_overlap ≤ chunk_size` (only a strictly larger overlap is rejected,
by the underlying splitter's constructor), and every successfully
constructed chunker therefore satisfies `chunk_overlap ≤ chunk_size` —
not the claimed strict inequality. -/
theorem c7_construction_iff (strategy : ChunkingStrategy)
    (chunk_size chunk_overlap : Int) :
    ((TextChunker.init strategy chunk_size chunk_overlap =
        .ok { strategy := strategy, chunk_size := chunk_size,
              chunk_overlap := chunk_overlap }) ↔
      chunk_overlap ≤ chunk_size) ∧
    (∀ c, TextChunker.init strategy chunk_size chunk_overlap = .ok c →
      c.chunk_overlap ≤ c.chunk_size) := by
  constructor
  · constructor
    · intro hc
      by_cases h : chunk_size < chunk_overlap
      · unfold TextChunker.init textSplitter_init_check at hc
        rw [if_pos h] at hc
        cases hc
      · exact le_of_not_lt h
    · intro hle
      unfold TextChunker.init textSplitter_init_check
      rw [if_neg (not_lt.mpr hle)]
  · intro c hc
    unfold TextChunker.init textSplitter_init_check at hc
    by_cases h : chunk_size < chunk_overlap
    · rw [if_pos h] at hc
      cases hc
    · rw [if_neg h] at hc
      cases hc
      exact le_of_not_lt h

/-- Witness for C7's amended theorem at the default configuration
(size 1000, overlap 200). -/
theorem c7_witness :
    TextChunker.init ChunkingStrategy.recursive 1000 200 =
      .ok { strategy := ChunkingStrategy.recursive, chunk_size := 1000,
            chunk_overlap := 200 } :=
  (c7_construction_iff ChunkingStrategy.recursive 1000 200).1.mpr (by decide)

/-! ## Claim C5 — retrieval filtering -/

/-- C5: for every query, `k` and threshold, `retrieve_documents` returns
exactly the subsequence of the store's `similarity_search` results whose
score is `≥ min_score`, in order and with records (hence ranks)
untouched, and an empty or whitespace-only query yields `[]` for every
store (so without consulting the index) — given the `SearchResult`
invariant `0 ≤ score` enforced by its pydantic validator (the code skips
the filter entirely when `min_score ≤ 0`, which coincides with the
filter only for non-negative scores). -/
theorem c5_retrieve_documents_filter
    (similarity_search : String → Nat → List SearchResult)
    (query : String) (k : Nat) (min_score : ℚ)
    (hscore : ∀ r ∈ similarity_search query k, 0 ≤ r.score) :
    retrieve_documents similarity_search query k min_score =
      retrieve_documents_spec similarity_search query k min_score := by
  unfold retrieve_documents retrieve_documents_spec
  by_cases hq : query.isEmpty || (pyStrip query).isEmpty
  · simp [hq]
  · simp only [hq, if_false]
    by_cases hm : 0 < min_score
    · simp [hm]
    · simp only [hm, if_false]
      refine (List.filter_eq_self.mpr ?_).symm
      intro r hr
      exact decide_eq_true (le_trans (le_of_not_lt hm) (hscore r hr))

/-- Witness for C5 at a concrete store: two hits with scores 9/10 and
1/5, threshold 1/2 — only the first survives, keeping its rank 0. -/
theorem c5_witness :
    retrieve_documents
      (fun _ _ =>
        [{ chunk := { chunk_id := "d_0", content := "Paris", chunk_index := 0,
                      source_document := "d" }, score := 1, rank := 0 },
         { chunk := { chunk_id := "d_1", content := "Rome", chunk_index := 1,
                      source_document := "d" }, score := 0, rank := 1 }])
      "capital" 2 1 =
    retrieve_documents_spec
      (fun _ _ =>
        [{ chunk := { chunk_id := "d_0", content := "Paris", chunk_index := 0,
                      source_document := "d" }, score := 1, rank := 0 },
         { chunk := { chunk_id := "d_1", content := "Rome", chunk_index := 1,
                      source_document := "d" }, score := 0, rank := 1 }])
      "capital" 2 1 := by
  apply c5_retrieve_documents_filter
  decide

/-! ## Claim C4 — short-term memory bound -/

/-- One append always yields the suffix of the last 50 entries (the
`if` only skips a trivial `drop 0`). -/
theorem add_to_short_term_eq_drop (mem : List MemItem) (item : MemItem) :
    add_to_short_term mem item =
      (mem ++ [item]).drop ((mem ++ [item]).length - 50) := by
  unfold add_to_short_term
  by_cases h : 50 < (mem ++ [item]).length
  · rw [if_pos h]
  · rw [if_neg h, Nat.sub_eq_zero_of_le (not_lt.mp h), List.drop_zero]

/-- Appending to a bounded memory keeps it bounded. -/
theorem add_to_short_term_length_le (mem : List MemItem) (item : MemItem)
    (_h : mem.length ≤ 50) : (add_to_short_term mem item).length ≤ 50 := by
  unfold add_to_short_term
  by_cases h50 : 50 < (mem ++ [item]).length
  · rw [if_pos h50]
    simp only [List.length_drop]
    omega
  · rw [if_neg h50]
    omega

/-- Folding appends over a bounded memory keeps it bounded. -/
theorem foldl_add_to_short_term_length_le (js : List MemItem) :
    ∀ mem : List MemItem, mem.length ≤ 50 →
      (List.foldl add_to_short_term mem js).length ≤ 50 := by
  induction js with
  | nil => intro mem h; simpa using h
  | cons i rest ih =>
    intro mem h
    rw [List.foldl_cons]
    exact ih _ (add_to_short_term_length_le mem i h)

/-- Folding appends over a bounded memory computes the 50-suffix of the
whole appended sequence. -/
theorem foldl_add_to_short_term_eq_drop (items : List MemItem) :
    ∀ mem : List MemItem, mem.length ≤ 50 →
      List.foldl add_to_short_term mem items =
        (mem ++ items).drop ((mem ++ items).length - 50) := by
  induction items with
  | nil =>
    intro mem h
    simp [Nat.sub_eq_zero_of_le h]
  | cons i rest ih =>
    intro mem h
    rw [List.foldl_cons, ih _ (add_to_short_term_length_le mem i h),
      add_to_short_term_eq_drop]
    by_cases h51 : (mem ++ [i]).length ≤ 50
    · rw [Nat.sub_eq_zero_of_le h51, List.drop_zero]
      simp
    · have hm : mem.length = 50 := by
        simp only [List.length_append, List.length_singleton] at h51
        omega
      have hd : (mem ++ [i]).length - 50 = 1 := by
        simp [List.length_append, hm]
      rw [hd]
      have key : (mem ++ [i]).drop 1 ++ rest = (mem ++ (i :: rest)).drop 1 := by
        have hassoc : mem ++ (i :: rest) = (mem ++ [i]) ++ rest := by simp
        rw [hassoc,
          List.drop_append_of_le_length (by simp [hm] : 1 ≤ (mem ++ [i]).length)]
      rw [key, List.drop_drop]
      congr 1
      simp only [List.length_drop, List.length_append, List.length_cons, hm]
      omega

/-- C4: after appending `N > 50` items to a (bounded, as the class keeps
it) short-term memory via `add_to_short_term`, exactly the 50 most
recently appended items remain, in insertion order (oldest evicted
first), and the memory length never exceeds 50 after any sequence of
appends. -/
theorem c4_short_term_memory_bound (mem items : List MemItem)
    (hmem : mem.length ≤ 50) (hN : 50 < items.length) :
    List.foldl add_to_short_term mem items =
      items.drop (items.length - 50) ∧
    ∀ js : List MemItem,
      (List.foldl add_to_short_term mem js).length ≤ 50 := by
  refine ⟨?_, fun js => foldl_add_to_short_term_length_le js mem hmem⟩
  rw [foldl_add_to_short_term_eq_drop items mem hmem]
  have hlen : (mem ++ items).length - 50 = mem.length + (items.length - 50) := by
    simp only [List.length_append]
    omega
  rw [hlen]
  exact List.drop_append (items.length - 50)

/-- Witness for C4: 51 appends onto an empty memory leave the last 50. -/
theorem c4_witness :
    50 < (List.replicate 51 ({ kind := "turn", content := "x" } : MemItem)).length ∧
    List.foldl add_to_short_term []
        (List.replicate 51 ({ kind := "turn", content := "x" } : MemItem)) =
      (List.replicate 51 ({ kind := "turn", content := "x" } : MemItem)).drop
        ((List.replicate 51 ({ kind := "turn", content := "x" } : MemItem)).length - 50) :=
  ⟨by simp,
   (c4_short_term_memory_bound []
     (List.replicate 51 ({ kind := "turn", content := "x" } : MemItem))
     (by simp) (by simp)).1⟩

/-! ## Claims C1 and C3 — tool executor -/

/-- A tool whose body raises with message `boom` (for the concrete
executor instances below). -/
def raising_tool : Tool Unit Unit :=
  { name := "t", execute := fun _ _ => .error "boom" }

/-- A tool manager holding only `raising_tool`, with empty history. -/
def raising_manager : ToolManager Unit Unit :=
  { tools := [raising_tool], execution_history := [] }

/-- Counterexample to C1: the executor converts a tool exception with
message `boom` into `error = "Tool execution failed: boom"`, which is
*not* equal to the exception's string `boom` — it is prefixed. -/
theorem c1_counterexample :
    raising_tool.execute () () = .error "boom" ∧
    (raising_manager.execute_tool () "t" ()).result.error =
      some ("Tool execution failed: " ++ "boom") ∧
    (raising_manager.execute_tool () "t" ()).result.error ≠ some "boom" := by
  refine ⟨rfl, rfl, by decide⟩

/-- C1 (amended): `execute_tool` is a total function (never raises — in
the model every Python exception a tool can produce, including kwarg
`TypeError`s, is an `.error` of its `execute`, and every case below
returns a `ToolResult`); an unknown name yields `success = false` with
the `not found` error and `execution_time = 0`; a disabled tool yields
`success = false` with the `is disabled` error (and time 0); and a tool
exception is caught and converted to `success = false` with error
`"Tool execution failed: " ++ e` — the exception's string *prefixed*,
not equal to it. -/
theorem c1_execute_tool_total {σ α : Type} (m : ToolManager σ α) (env : σ)
    (tool_name : String) (kwargs : α) :
    (m.get_tool tool_name = none →
      (m.execute_tool env tool_name kwargs).result =
        { tool_name := tool_name, success := false,
          error := some ("Tool '" ++ tool_name ++ "' not found"),
          execution_time := 0 }) ∧
    (∀ t, m.get_tool tool_name = some t → t.enabled = false →
      (m.execute_tool env tool_name kwargs).result =
        { tool_name := tool_name, success := false,
          error := some ("Tool '" ++ tool_name ++ "' is disabled"),
          execution_time := 0 }) ∧
    (∀ t r env', m.get_tool tool_name = some t → t.enabled = true →
      t.execute kwargs env = .ok (r, env') →
      (m.execute_tool env tool_name kwargs).result = r) ∧
    (∀ t e, m.get_tool tool_name = some t → t.enabled = true →
      t.execute kwargs env = .error e →
      (m.execute_tool env tool_name kwargs).result =
        { tool_name := tool_name, success := false,
          error := some ("Tool execution failed: " ++ e),
          execution_time := 0 }) := by
  refine ⟨fun hn => ?_, fun t ht hd => ?_, fun t r env' ht he hx => ?_,
    fun t e ht he hx => ?_⟩
  · unfold ToolManager.execute_tool
    rw [hn]
  · unfold ToolManager.execute_tool
    rw [ht]
    simp [hd]
  · unfold ToolManager.execute_tool
    rw [ht]
    simp [he, hx]
  · unfold ToolManager.execute_tool
    rw [ht]
    simp [he, hx]

/-- Witness for C1 at the concrete raising tool: applying the amended
theorem's exception case yields the prefixed error result. -/
theorem c1_witness :
    (raising_manager.execute_tool () "t" ()).result =
      { tool_name := "t", success := false,
        error := some ("Tool execution failed: " ++ "boom"),
        execution_time := 0 } :=
  (c1_execute_tool_total raising_manager () "t" ()).2.2.2
    raising_tool "boom" rfl rfl rfl

/-- Counterexample to C3: an unknown-name call returns a failed
`ToolResult` but appends nothing to the execution history — the log does
not receive an entry for every call. -/
theorem c3_counterexample :
    (raising_manager.execute_tool () "unknown" ()).result.success = false ∧
    (raising_manager.execute_tool () "unknown" ()).manager.execution_history = [] := by
  exact ⟨rfl, rfl⟩

/-- C3 (amended): `execute_tool` appends exactly one history entry
(name, kwargs, returned result; the wall-clock timestamp is outside the
embedding) when the named tool exists and is enabled — both when the
tool completes and when it raises — and appends nothing on the
unknown-name and disabled-tool early returns. -/
theorem c3_execution_history_append {σ α : Type} (m : ToolManager σ α)
    (env : σ) (tool_name : String) (kwargs : α) :
    (m.execute_tool env tool_name kwargs).manager.execution_history =
      m.execution_history ++
        (match m.get_tool tool_name with
         | none => []
         | some t =>
           if t.enabled then
             [{ tool_name := tool_name, parameters := kwargs,
                result := (m.execute_tool env tool_name kwargs).result }]
           else []) := by
  unfold ToolManager.execute_tool
  match hg : m.get_tool tool_name with
  | none => simp
  | some t =>
    by_cases hen : t.enabled
    · simp only [hen, if_true, Bool.not_true]
      match hx : t.execute kwargs env with
      | .ok (r, env') => simp
      | .error e => simp
    · simp [hen]

/-! ## Claim C6 — knowledge-base insert with empty content -/

/-- Counterexample to C6: with `content = ""` the temporary file is
empty, so the text loader exhausts its encodings and the processor
raises — the tool reports the `DocumentProcessor failed` decode error,
whose text does **not** mention that no content could be extracted (the
distinct `No content could be extracted` branch is not reached).  The
success flag is `false` and the counters are unchanged, as claimed. -/
theorem c6_counterexample :
    (addToKB_execute (fun s => [s]) (fun _ => true)
        (some { processed_documents := [], total_documents := 3, total_chunks := 7 })
        "/tmp/tmpkb0.txt" "" "Title" "user_input").1.success = false ∧
    pyIn "content could be extracted"
      ((addToKB_execute (fun s => [s]) (fun _ => true)
        (some { processed_documents := [], total_documents := 3, total_chunks := 7 })
        "/tmp/tmpkb0.txt" "" "Title" "user_input").1.error.getD "") = false ∧
    (addToKB_execute (fun s => [s]) (fun _ => true)
        (some { processed_documents := [], total_documents := 3, total_chunks := 7 })
        "/tmp/tmpkb0.txt" "" "Title" "user_input").2 =
      some { processed_documents := [], total_documents := 3, total_chunks := 7 } := by
  set_option maxRecDepth 4000 in decide

/-- C6 (amended): calling the knowledge-base-insert tool with empty (or
whitespace-only) content returns `success = false` and leaves the
document manager's counters untouched, but the error is the
`DocumentProcessor failed` decode-failure message, not the
`No content could be extracted` message the claim names. -/
theorem c6_empty_content_insert (split_text : String → List String)
    (add_documents : List DocumentChunk → Bool) (dm : Option DocumentManager)
    (path title source content : String)
    (h : (pyStrip content).isEmpty = true) :
    (addToKB_execute split_text add_documents dm path content title source).1.success
        = false ∧
    (addToKB_execute split_text add_documents dm path content title source).1.error =
      some ("DocumentProcessor failed: " ++
        ("Failed to load content from " ++ path ++ ": " ++
          ("Could not decode file " ++ path ++ " with any supported encoding"))) ∧
    (addToKB_execute split_text add_documents dm path content title source).2 = dm := by
  unfold addToKB_execute process_document textLoader_load_content
  simp [h]

/-- Witness for C6's amended theorem at `content = ""`. -/
theorem c6_witness :
    (addToKB_execute (fun s => [s]) (fun _ => true) none "/tmp/tmpkb1.txt" ""
        "Notes" "user_input").1.success = false ∧
    (addToKB_execute (fun s => [s]) (fun _ => true) none "/tmp/tmpkb1.txt" ""
        "Notes" "user_input").2 = none :=
  ⟨(c6_empty_content_insert (fun s => [s]) (fun _ => true) none "/tmp/tmpkb1.txt"
      "Notes" "user_input" "" (by decide)).1,
   (c6_empty_content_insert (fun s => [s]) (fun _ => true) none "/tmp/tmpkb1.txt"
      "Notes" "user_input" "" (by decide)).2.2⟩

/-! ## Claim C8 — github+python query recommends repository search -/

/-- C8: every utterance whose lower-cased text contains both `github`
and `python` as substrings gets the content-fetching repository-search
tool (`github_search_with_content`) in its recommendation list, with the
`language` parameter set to `python` — the first language family in the
detector's scan order that matches. -/
theorem c8_github_python_recommendation (u : String)
    (hg : pyIn "github" (pyLower u) = true)
    (hp : pyIn "python" (pyLower u) = true) :
    github_rec u ∈ (decide_tool_usage u).recommended_tools ∧
    (github_rec u).parameters.language = some (some "python") := by
  constructor
  · unfold decide_tool_usage
    have hhit : keywords_for_github.any (fun kw => pyIn kw (pyLower u)) = true :=
      List.any_eq_true.mpr ⟨"github", by decide, hg⟩
    simp [hhit]
  · show some (detect_programming_language u) = some (some "python")
    have hany : (["python", "def", "import", "class", "pip", "django", "flask",
        "pandas"].any (fun kw => pyIn kw (pyLower u))) = true :=
      List.any_eq_true.mpr ⟨"python", by decide, hp⟩
    simp [detect_programming_language, language_keywords, hany]

/-- Witness for C8 at the utterance `github python`. -/
theorem c8_witness :
    github_rec "github python" ∈
      (decide_tool_usage "github python").recommended_tools ∧
    (github_rec "github python").parameters.language = some (some "python") :=
  c8_github_python_recommendation "github python" (by decide) (by decide)

/-! ## Claim C10 — keyword rules match by substring containment -/

/-- C10: the policy's keyword rules fire on bare substring containment in
the lower-cased utterance — any keyword of the GitHub/code lists occurring
as a contiguous substring (standalone word or not) triggers the
repository-search recommendation, any analysis keyword triggers the
text-analysis recommendation, and any search keyword triggers the
document-search recommendation whenever the GitHub rule does not
pre-empt it. -/
theorem c10_substring_keyword_matching (u kw : String) :
    ((kw ∈ keywords_for_github ∨ kw ∈ keywords_for_code_search) →
      pyIn kw (pyLower u) = true →
      github_rec u ∈ (decide_tool_usage u).recommended_tools) ∧
    (kw ∈ keywords_for_analysis → pyIn kw (pyLower u) = true →
      text_analysis_rec u ∈ (decide_tool_usage u).recommended_tools) ∧
    (kw ∈ keywords_for_search → pyIn kw (pyLower u) = true →
      keywords_for_github.any (fun k2 => pyIn k2 (pyLower u)) = false →
      keywords_for_code_search.any (fun k2 => pyIn k2 (pyLower u)) = false →
      doc_search_rec u ∈ (decide_tool_usage u).recommended_tools) := by
  refine ⟨?_, ?_, ?_⟩
  · rintro (hmem | hmem) hin
    · unfold decide_tool_usage
      have hhit : keywords_for_github.any (fun k2 => pyIn k2 (pyLower u)) = true :=
        List.any_eq_true.mpr ⟨kw, hmem, hin⟩
      simp [hhit]
    · unfold decide_tool_usage
      have hhit : keywords_for_code_search.any (fun k2 => pyIn k2 (pyLower u)) = true :=
        List.any_eq_true.mpr ⟨kw, hmem, hin⟩
      simp [hhit]
  · intro hmem hin
    unfold decide_tool_usage
    have hhit : keywords_for_analysis.any (fun k2 => pyIn k2 (pyLower u)) = true :=
      List.any_eq_true.mpr ⟨kw, hmem, hin⟩
    simp [hhit]
  · intro hmem hin hgh hcode
    unfold decide_tool_usage
    have hhit : keywords_for_search.any (fun k2 => pyIn k2 (pyLower u)) = true :=
      List.any_eq_true.mpr ⟨kw, hmem, hin⟩
    simp [hhit, hgh, hcode]

/-- Witness for C10: `how` occurs only inside the word `shower`, yet the
document-search rule fires; `java` occurs only inside `JavaScript`, yet
the repository-search rule fires. -/
theorem c10_witness :
    doc_search_rec "Tell me about my shower" ∈
      (decide_tool_usage "Tell me about my shower").recommended_tools ∧
    github_rec "I like JavaScript" ∈
      (decide_tool_usage "I like JavaScript").recommended_tools :=
  ⟨(c10_substring_keyword_matching "Tell me about my shower" "how").2.2
      (by decide) (by decide) (by decide) (by decide),
   (c10_substring_keyword_matching "I like JavaScript" "java").1
      (Or.inr (by decide)) (by decide)⟩

/-! ## Claim C2 — process_request under a permanently-failing LLM -/

/-- Tail containment: the error text appended after a fixed message is a
substring of the whole. -/
theorem pyIn_append_right (a b : String) : pyIn b (a ++ b) = true := by
  unfold pyIn
  apply decide_eq_true
  rw [String.data_append]
  exact (List.suffix_append a.data b.data).isInfix

/-- When the LLM collaborator raises on every call, `process_query`
returns (without raising) a `success = false` dictionary carrying the
error, and leaves the conversation store unchanged. -/
theorem process_query_llm_error (env : AgentEnv) (convs : ConvStore)
    (query cid : String)
    (h : ∀ ms, ∃ e, env.llm ms = .error e) :
    ∃ e : String, ∃ pq : PQResult,
      process_query env convs query (some cid) "rag_qa" 5 = .ok (pq, convs) ∧
      pq.success = false ∧ pq.error = some e := by
  have hko : ∀ ms r, env.llm ms ≠ .ok r := by
    intro ms r hok
    obtain ⟨e, he⟩ := h ms
    rw [hok] at he
    cases he
  simp only [process_query]
  rw [if_neg (by simp)]
  split
  · rename_i e heq
    exact ⟨e, _, rfl, rfl, rfl⟩
  · rename_i r heq
    exact absurd heq (hko _ r)

/-- When the LLM collaborator raises on every call,
`_generate_simple_response` returns the degraded apology response with
the fallback call's error text appended — an ordinary `.ok` value, not
an exception. -/
theorem generate_simple_response_llm_error (env : AgentEnv)
    (convs : ConvStore) (cid u : String)
    (h : ∀ ms, ∃ e, env.llm ms = .error e) :
    ∃ e : String,
      env.llm [ChatMessage.mk "system" fallback_system_prompt,
        ChatMessage.mk "user" u] = .error e ∧
      generate_simple_response env convs cid u =
        .ok ({ response := apology_text ++ e, tools_used := [],
               error := some e, fallback_response := true }, convs) := by
  obtain ⟨e1, pq, hpq, hsucc, _⟩ := process_query_llm_error env convs u cid h
  obtain ⟨e2, he2⟩ := h [ChatMessage.mk "system" fallback_system_prompt,
    ChatMessage.mk "user" u]
  refine ⟨e2, he2, ?_⟩
  simp only [generate_simple_response]
  rw [hpq]
  simp only [hsucc, he2, Bool.false_eq_true, if_false]

/-- C2 (amended): with an LLM collaborator that raises on every call,
`process_request` still returns a structured `TurnResult` without
throwing, and the result embeds the LLM's error text in its response —
but its `success` flag is `true`, not the claimed `false`: the degraded
fallback response is reported as a successful turn (`success = false`
occurs only when an exception escapes to the top-level handler, which
the caught LLM failure never does).  Stated here for every turn on which
the policy recommends no tools (the `use_tools` flag is off or the
keyword policy finds nothing), which routes through
`_generate_simple_response`. -/
theorem c2_process_request_llm_error (st : AgentState) (u : String)
    (use_tools : Bool)
    (hllm : ∀ ms, ∃ e, st.env.llm ms = .error e)
    (hno : ¬ (use_tools = true ∧ (decide_tool_usage u).use_tools = true)) :
    ∃ e : String,
      st.env.llm [ChatMessage.mk "system" fallback_system_prompt,
        ChatMessage.mk "user" u] = .error e ∧
      (process_request st u use_tools).1.success = true ∧
      (process_request st u use_tools).1.response = some (apology_text ++ e) ∧
      pyIn e ((process_request st u use_tools).1.response.getD "") = true := by
  obtain ⟨e, he, hgen⟩ :=
    generate_simple_response_llm_error st.env st.conversations
      st.conversation_id u hllm
  refine ⟨e, he, ?_⟩
  simp only [process_request]
  rw [if_neg hno]
  rw [hgen]
  exact ⟨rfl, rfl, pyIn_append_right apology_text e⟩

/-- The collaborator environment whose LLM raises on every call (and
whose other collaborators are benign). -/
def failing_env : AgentEnv :=
  { similarity_search := fun _ _ => []
    add_documents := fun _ => true
    split_text := fun s => [s]
    temp_path := "/tmp/tmpkb2.txt"
    document_manager := none
    llm := fun _ => .error "LLM unavailable" }

/-- A fresh agent wired to `failing_env`. -/
def failing_agent : AgentState :=
  { conversation_id := "conv-1", env := failing_env }

/-- Counterexample to C2: with the LLM raising on every call, the
structured result of `process_request` has `success = true` — not the
claimed `success = False` — even though the error text is embedded in
the response. -/
theorem c2_counterexample :
    (∀ ms, failing_env.llm ms = .error "LLM unavailable") ∧
    (process_request failing_agent "zzz" true).1.success = true ∧
    (process_request failing_agent "zzz" true).1.response =
      some (apology_text ++ "LLM unavailable") := by
  refine ⟨fun _ => rfl, ?_, ?_⟩ <;> rfl

/-- Witness for C2's amended theorem at the concrete failing agent. -/
theorem c2_witness :
    (process_request failing_agent "zzz" true).1.success = true ∧
    pyIn "LLM unavailable"
      ((process_request failing_agent "zzz" true).1.response.getD "") = true := by
  obtain ⟨e, he, hsucc, hresp, hcontains⟩ :=
    c2_process_request_llm_error failing_agent "zzz" true
      (fun ms => ⟨"LLM unavailable", rfl⟩) (by decide)
  have he' : e = "LLM unavailable" := by
    cases he
    rfl
  exact ⟨hsucc, he' ▸ hcontains⟩

end ChatBot
